import Mathlib

/-!
Verification of the Run Coach decision engine of `healthmap_ai`
(`src/backend_python/run_coach/`): a shallow embedding in Lean 4 of the
health-risk model (`core/health_risk.py`), the Pareto route optimizer
(`core/optimizer.py`), the pollution grid (`core/pollution_grid.py`) and the
time-window optimizer (`services/time_optimizer.py`), together with theorems
settling the specification's claims about them.

Conventions of the embedding:
* Python floats are modelled as rationals (`ℚ`); every arithmetic constant of
  the source appears verbatim.
* Python dict lookups with a default (`dict.get(k, d)`) are modelled as
  `Option`-valued tables plus `Option.getD`.
* Python exceptions are modelled with `Except String`.
* Calls into external libraries (scipy interpolation, numpy std) and external
  collaborators (forecast services, wall-clock time) are passed in as explicit
  parameters, as the specification treats them as external inputs.
-/

namespace RunCoach

/-! ## Data model (`run_coach/models/__init__.py`) -/

/-- Model of the `UserProfile` dataclass.  Optional biometric fields are
`Option ℚ`; Python's `if user_profile.field:` truthiness (which treats both
`None` and `0` as absent) is modelled by `pyTruthy`. -/
structure UserProfile where
  user_id : String
  health_conditions : List String
  age_group : String
  fitness_level : String
  resting_hr : Option ℚ
  avg_hrv : Option ℚ
  vo2_max_estimate : Option ℚ
deriving DecidableEq

/-- Model of the `RunningPreferences` dataclass (fields the optimizer reads). -/
structure RunningPreferences where
  preferred_distance_m : ℚ
  max_elevation_gain_m : ℚ
  avoid_traffic : Bool
  prioritize_parks : Bool
deriving DecidableEq

/-- Python numeric truthiness: `None` and `0` are falsy, every other number is
truthy. -/
def pyTruthy (o : Option ℚ) : Bool :=
  match o with
  | none => false
  | some v => v != 0

/-- Property `has_asthma` of `UserProfile`. -/
def UserProfile.has_asthma (p : UserProfile) : Bool :=
  p.health_conditions.contains "asthma"

/-- Property `has_copd` of `UserProfile`. -/
def UserProfile.has_copd (p : UserProfile) : Bool :=
  p.health_conditions.contains "copd"

/-- Property `has_allergies` of `UserProfile`. -/
def UserProfile.has_allergies (p : UserProfile) : Bool :=
  p.health_conditions.contains "allergies"

/-! ## Health risk model (`run_coach/core/health_risk.py`) -/

/-- Table `HealthRiskCalculator.BASE_THRESHOLDS`. -/
def BASE_THRESHOLDS (activity : String) : Option ℚ :=
  if activity = "rest" then some 150
  else if activity = "light" then some 100
  else if activity = "moderate" then some 75
  else if activity = "vigorous" then some 50
  else none

/-- Table `HealthRiskCalculator.CONDITION_MULTIPLIERS`. -/
def CONDITION_MULTIPLIERS (c : String) : Option ℚ :=
  if c = "asthma" then some 0.6
  else if c = "copd" then some 0.5
  else if c = "heart_disease" then some 0.65
  else if c = "allergies" then some 0.8
  else if c = "pregnancy" then some 0.7
  else if c = "diabetes" then some 0.85
  else if c = "hypertension" then some 0.8
  else none

/-- Table `HealthRiskCalculator.AGE_MULTIPLIERS`. -/
def AGE_MULTIPLIERS (a : String) : Option ℚ :=
  if a = "0-12" then some 0.6
  else if a = "13-17" then some 0.8
  else if a = "18-24" then some 1
  else if a = "25-34" then some 1
  else if a = "35-44" then some 0.95
  else if a = "45-54" then some 0.9
  else if a = "55-64" then some 0.8
  else if a = "65+" then some 0.7
  else none

/-- The `self.BASE_THRESHOLDS.get(activity_level, 75)` lookup in
`calculate_personal_threshold`. -/
def base_threshold (activity : String) : ℚ :=
  (BASE_THRESHOLDS activity).getD 75

/-- The condition-multiplier loop of `calculate_personal_threshold`:
start from `1.0` and take `min` with every matching table entry. -/
def condition_multiplier (conditions : List String) : ℚ :=
  conditions.foldl
    (fun m c =>
      match CONDITION_MULTIPLIERS c with
      | some v => min m v
      | none => m)
    1

/-- The `self.AGE_MULTIPLIERS.get(user_profile.age_group, 0.9)` lookup. -/
def age_multiplier (p : UserProfile) : ℚ :=
  (AGE_MULTIPLIERS p.age_group).getD 0.9

/-- Model of `HealthRiskCalculator._calculate_fitness_multiplier`.  The
`elif vo2 > 60` / `elif hr < 45` branches are kept even though the preceding
branch shadows them, exactly as in the source. -/
def calculate_fitness_multiplier (p : UserProfile) : ℚ :=
  let m : ℚ := 1
  let m : ℚ :=
    match p.vo2_max_estimate with
    | none => m
    | some v =>
      if v = 0 then m
      else if v < 35 then m * 0.85
      else if v > 50 then m * 1.15
      else if v > 60 then m * 1.25
      else m
  let m : ℚ :=
    match p.resting_hr with
    | none => m
    | some hr =>
      if hr = 0 then m
      else if hr > 80 then m * 0.9
      else if hr < 55 then m * 1.1
      else if hr < 45 then m * 1.2
      else m
  min (max m 0.8) 1.3

/-- Model of `HealthRiskCalculator._calculate_hrv_multiplier`. -/
def calculate_hrv_multiplier (p : UserProfile) : ℚ :=
  match p.avg_hrv with
  | none => 1
  | some hrv =>
    if hrv = 0 then 1
    else if hrv < 30 then 0.85
    else if hrv < 50 then 0.95
    else if hrv > 70 then 1.1
    else 1

/-- Model of `HealthRiskCalculator.calculate_personal_threshold`. -/
def calculate_personal_threshold (p : UserProfile) (activity_level : String) : ℚ :=
  base_threshold activity_level * condition_multiplier p.health_conditions *
    age_multiplier p * calculate_fitness_multiplier p * calculate_hrv_multiplier p

/-- Spec-side definition of the condition factor, following the
specification's words for claim C2: "the minimum multiplier among all matching
health-condition multipliers present in the profile" (neutral `1` when no
condition matches).  To be compared with `condition_multiplier`, which is the
translation of the source. -/
def specConditionFactor (conditions : List String) : ℚ :=
  match conditions.filterMap CONDITION_MULTIPLIERS with
  | [] => 1
  | v :: vs => vs.foldl min v

/-! ### Basic facts about the multiplier tables -/

theorem CONDITION_MULTIPLIERS_pos {c : String} {v : ℚ}
    (h : CONDITION_MULTIPLIERS c = some v) : 0 < v := by
  unfold CONDITION_MULTIPLIERS at h
  split_ifs at h <;> simp_all <;> norm_num [← h]

theorem CONDITION_MULTIPLIERS_le_one {c : String} {v : ℚ}
    (h : CONDITION_MULTIPLIERS c = some v) : v ≤ 1 := by
  unfold CONDITION_MULTIPLIERS at h
  split_ifs at h <;> simp_all <;> norm_num [← h]

theorem base_threshold_pos (activity : String) : 0 < base_threshold activity := by
  unfold base_threshold BASE_THRESHOLDS
  split_ifs <;> norm_num

theorem age_multiplier_pos (p : UserProfile) : 0 < age_multiplier p := by
  unfold age_multiplier AGE_MULTIPLIERS
  split_ifs <;> norm_num

theorem calculate_fitness_multiplier_pos (p : UserProfile) :
    0 < calculate_fitness_multiplier p := by
  unfold calculate_fitness_multiplier
  exact lt_min (lt_of_lt_of_le (by norm_num) (le_max_right _ _)) (by norm_num)

theorem calculate_hrv_multiplier_pos (p : UserProfile) :
    0 < calculate_hrv_multiplier p := by
  unfold calculate_hrv_multiplier
  cases p.avg_hrv with
  | none => norm_num
  | some hrv =>
    dsimp only
    split_ifs <;> norm_num

/-- The fold computing the condition multiplier is monotone in its seed. -/
theorem condition_fold_mono (cs : List String) {a b : ℚ} (h : a ≤ b) :
    cs.foldl
      (fun m c =>
        match CONDITION_MULTIPLIERS c with
        | some v => min m v
        | none => m) a ≤
    cs.foldl
      (fun m c =>
        match CONDITION_MULTIPLIERS c with
        | some v => min m v
        | none => m) b := by
  induction cs generalizing a b with
  | nil => exact h
  | cons c cs ih =>
    simp only [List.foldl_cons]
    cases hc : CONDITION_MULTIPLIERS c with
    | none => exact ih h
    | some v => exact ih (min_le_min h le_rfl)

theorem condition_fold_pos (cs : List String) {a : ℚ} (h : 0 < a) :
    0 < cs.foldl
      (fun m c =>
        match CONDITION_MULTIPLIERS c with
        | some v => min m v
        | none => m) a := by
  induction cs generalizing a with
  | nil => exact h
  | cons c cs ih =>
    simp only [List.foldl_cons]
    cases hc : CONDITION_MULTIPLIERS c with
    | none => exact ih h
    | some v => exact ih (lt_min h (CONDITION_MULTIPLIERS_pos hc))

theorem condition_multiplier_pos (cs : List String) : 0 < condition_multiplier cs :=
  condition_fold_pos cs (by norm_num)

theorem condition_multiplier_cons_le (c : String) (cs : List String) :
    condition_multiplier (c :: cs) ≤ condition_multiplier cs := by
  unfold condition_multiplier
  simp only [List.foldl_cons]
  apply condition_fold_mono
  cases hc : CONDITION_MULTIPLIERS c with
  | none => exact le_rfl
  | some v => exact min_le_left _ _

/-- The source's `1`-seeded min-fold agrees with a plain min-fold over the
matching multipliers. -/
theorem condition_multiplier_eq_minFold (cs : List String) {a : ℚ} :
    cs.foldl
      (fun m c =>
        match CONDITION_MULTIPLIERS c with
        | some v => min m v
        | none => m) a =
    (cs.filterMap CONDITION_MULTIPLIERS).foldl min a := by
  induction cs generalizing a with
  | nil => rfl
  | cons c cs ih =>
    simp only [List.foldl_cons, List.filterMap_cons]
    cases hc : CONDITION_MULTIPLIERS c with
    | none => exact ih
    | some v => simp only [List.foldl_cons]; exact ih

theorem condition_multiplier_eq_specConditionFactor (cs : List String) :
    condition_multiplier cs = specConditionFactor cs := by
  unfold condition_multiplier specConditionFactor
  rw [condition_multiplier_eq_minFold]
  cases h : cs.filterMap CONDITION_MULTIPLIERS with
  | nil => rfl
  | cons v vs =>
    have hv : v ≤ 1 := by
      have : v ∈ cs.filterMap CONDITION_MULTIPLIERS := by
        rw [h]; exact List.mem_cons_self v vs
      obtain ⟨c, _, hc⟩ := List.mem_filterMap.mp this
      exact CONDITION_MULTIPLIERS_le_one hc
    simp only [List.foldl_cons, min_eq_right hv]

/-! ### Claims C2 and C10: personal threshold -/

/-- Claim C2: `calculate_personal_threshold` applies as the condition factor
the minimum multiplier among the profile's health conditions that appear in
the multiplier table (conditions are not additive), and consequently the
returned threshold is non-increasing when a condition is added to the
profile's condition list while all other fields and the activity level are
held fixed.  (Proved for an arbitrary added condition, which covers in
particular the table conditions such as "copd".) -/
theorem personal_threshold_condition_min_and_monotone
    (p : UserProfile) (activity c : String) :
    condition_multiplier p.health_conditions = specConditionFactor p.health_conditions ∧
    calculate_personal_threshold { p with health_conditions := c :: p.health_conditions }
        activity ≤
      calculate_personal_threshold p activity := by
  refine ⟨condition_multiplier_eq_specConditionFactor _, ?_⟩
  unfold calculate_personal_threshold
  have hage : age_multiplier { p with health_conditions := c :: p.health_conditions } =
      age_multiplier p := rfl
  have hfit : calculate_fitness_multiplier
      { p with health_conditions := c :: p.health_conditions } =
      calculate_fitness_multiplier p := rfl
  have hhrv : calculate_hrv_multiplier
      { p with health_conditions := c :: p.health_conditions } =
      calculate_hrv_multiplier p := rfl
  rw [hage, hfit, hhrv]
  apply mul_le_mul_of_nonneg_right _ (calculate_hrv_multiplier_pos p).le
  apply mul_le_mul_of_nonneg_right _ (calculate_fitness_multiplier_pos p).le
  apply mul_le_mul_of_nonneg_right _ (age_multiplier_pos p).le
  exact mul_le_mul_of_nonneg_left (condition_multiplier_cons_le c p.health_conditions)
    (base_threshold_pos activity).le

/-- Claim C10: a profile whose `age_group` is not one of the eight known
buckets gets the default age multiplier `0.9` instead of the neutral `1.0`,
so its threshold is strictly below the same profile with age group `"25-34"`
(whose multiplier is `1.0`), all other fields and the activity level fixed. -/
theorem unknown_age_group_lowers_threshold
    (p : UserProfile) (activity : String)
    (h : AGE_MULTIPLIERS p.age_group = none) :
    age_multiplier p = 0.9 ∧
    calculate_personal_threshold p activity <
      calculate_personal_threshold { p with age_group := "25-34" } activity := by
  have hage : age_multiplier p = 0.9 := by
    unfold age_multiplier
    rw [h]
    rfl
  refine ⟨hage, ?_⟩
  unfold calculate_personal_threshold
  have hproj : ({ p with age_group := "25-34" } : UserProfile).age_group = "25-34" := rfl
  have hage2 : age_multiplier { p with age_group := "25-34" } = 1 := by
    unfold age_multiplier
    rw [hproj]
    decide
  have hcond : condition_multiplier
      ({ p with age_group := "25-34" } : UserProfile).health_conditions =
      condition_multiplier p.health_conditions := rfl
  have hfit : calculate_fitness_multiplier { p with age_group := "25-34" } =
      calculate_fitness_multiplier p := rfl
  have hhrv : calculate_hrv_multiplier { p with age_group := "25-34" } =
      calculate_hrv_multiplier p := rfl
  rw [hage, hage2, hcond, hfit, hhrv]
  have hK : 0 < base_threshold activity * condition_multiplier p.health_conditions :=
    mul_pos (base_threshold_pos activity) (condition_multiplier_pos _)
  apply mul_lt_mul_of_pos_right _ (calculate_hrv_multiplier_pos p)
  apply mul_lt_mul_of_pos_right _ (calculate_fitness_multiplier_pos p)
  exact mul_lt_mul_of_pos_left (by norm_num) hK

/-- A profile with an age group outside the eight known buckets, used as the
concrete input of the witness below. -/
def profileUnknownAge : UserProfile :=
  { user_id := "u1", health_conditions := [], age_group := "unknown",
    fitness_level := "intermediate", resting_hr := none, avg_hrv := none,
    vo2_max_estimate := none }

theorem unknown_age_group_lowers_threshold_witness :
    age_multiplier profileUnknownAge = 0.9 ∧
    calculate_personal_threshold profileUnknownAge "moderate" <
      calculate_personal_threshold { profileUnknownAge with age_group := "25-34" }
        "moderate" :=
  unknown_age_group_lowers_threshold profileUnknownAge "moderate" (by decide)

/-! ### Claim C9: forecast window search (`_find_optimal_windows`) -/

/-- Record produced by `HealthRiskCalculator._find_optimal_windows` for a
below-threshold forecast window. -/
structure HRWindow where
  start_hour : ℕ
  end_hour : ℕ
  duration_hours : ℕ
  avg_aqi : ℚ
  quality : String
deriving DecidableEq

/-- Model of `np.mean` on a list of rationals.  (Only applied to nonempty
slices in the translated code.) -/
def pyMean (l : List ℚ) : ℚ := l.sum / (l.length : ℚ)

/-- The window dict built by `_find_optimal_windows` for the slice
`forecast_aqi[s:e]`. -/
def mkHRWindow (forecast : List ℚ) (threshold : ℚ) (s e : ℕ) : HRWindow :=
  let slice := (forecast.drop s).take (e - s)
  { start_hour := s
    end_hour := e
    duration_hours := e - s
    avg_aqi := pyMean slice
    quality := if pyMean slice < threshold * 0.75 then "good" else "moderate" }

/-- Loop body of `HealthRiskCalculator._find_optimal_windows`: scan the hourly
forecast tracking the start of the current below-threshold run (`start?`);
close a run when an hour at or above threshold is met (keeping it if it lasted
at least `minDur` hours); the `[]` case performs the source's trailing
`# Check last window` step on a run still open at the end of the forecast. -/
def find_windows_loop (forecast : List ℚ) (threshold : ℚ) (minDur : ℕ) :
    List ℚ → ℕ → Option ℕ → List HRWindow → List HRWindow
  | [], _, start?, ws =>
    match start? with
    | some s =>
      if minDur ≤ forecast.length - s then
        ws ++ [mkHRWindow forecast threshold s forecast.length]
      else ws
    | none => ws
  | aqi :: rest, i, start?, ws =>
    if aqi < threshold then
      find_windows_loop forecast threshold minDur rest (i + 1)
        (match start? with
         | none => some i
         | some s => some s) ws
    else
      match start? with
      | some s =>
        find_windows_loop forecast threshold minDur rest (i + 1) none
          (if minDur ≤ i - s then ws ++ [mkHRWindow forecast threshold s i] else ws)
      | none => find_windows_loop forecast threshold minDur rest (i + 1) none ws

/-- Model of `HealthRiskCalculator._find_optimal_windows`. -/
def find_optimal_windows_hr (forecast : List ℚ) (threshold : ℚ)
    (min_duration_hours : ℕ) : List HRWindow :=
  find_windows_loop forecast threshold min_duration_hours forecast 0 none []

/-- Claim C9: on the hourly AQI forecast `[30,30,30,120,120,30,30,30]` with
personal threshold `75` and 1-hour minimum duration, the window search yields
exactly two windows, covering hours `[0,3)` and `[5,8)` (both of average AQI
30, labelled "good"), and in particular no window containing hours 3 or 4. -/
theorem forecast_window_search_scenario :
    find_optimal_windows_hr [30, 30, 30, 120, 120, 30, 30, 30] 75 1 =
      [{ start_hour := 0, end_hour := 3, duration_hours := 3, avg_aqi := 30,
         quality := "good" },
       { start_hour := 5, end_hour := 8, duration_hours := 3, avg_aqi := 30,
         quality := "good" }] := by
  norm_num [find_optimal_windows_hr, find_windows_loop, mkHRWindow, pyMean]

/-! ## Route optimizer (`run_coach/core/optimizer.py`) -/

/-- The five-component objective vector attached to a candidate route by
`_calculate_objectives` (all objectives are minimized). -/
structure Objectives where
  exposure : ℚ
  distance_error : ℚ
  elevation_penalty : ℚ
  green_space : ℚ
  safety : ℚ
deriving DecidableEq

/-- The objective dict in iteration order of `for key in obj1` (Python dicts
preserve insertion order, and both dicts are built by
`_calculate_objectives` with these five keys). -/
def Objectives.toList (o : Objectives) : List ℚ :=
  [o.exposure, o.distance_error, o.elevation_penalty, o.green_space, o.safety]

/-- A candidate route as seen by the Pareto/ranking steps: its objective
vector (the only field those steps read) plus an identifier. -/
structure Route where
  route_id : String
  objectives : Objectives
deriving DecidableEq

/-- The `better_in_any` flag of `RunCoachOptimizer._check_dominance`: some
objective of `o1` is strictly lower than the corresponding objective of `o2`.
The source's `worse_in_any` flag is definitionally
`strictly_better_somewhere o2 o1` (the zipped comparison with the components
swapped), which is how it is written below. -/
def strictly_better_somewhere (o1 o2 : Objectives) : Bool :=
  (o1.toList.zip o2.toList).any fun q => decide (q.1 < q.2)

/-- Model of `RunCoachOptimizer._check_dominance`: `1` if `o1` dominates `o2`,
`-1` if `o2` dominates `o1`, `0` otherwise. -/
def check_dominance (o1 o2 : Objectives) : ℤ :=
  if strictly_better_somewhere o1 o2 && !strictly_better_somewhere o2 o1 then 1
  else if strictly_better_somewhere o2 o1 && !strictly_better_somewhere o1 o2 then -1
  else 0

/-- Sanity check for the swapped-component reading of `worse_in_any`: the
source's `worse_in_any` boolean over `o1, o2` is exactly
`strictly_better_somewhere o2 o1`. -/
theorem worse_in_any_eq (o1 o2 : Objectives) :
    ((o1.toList.zip o2.toList).any fun q => decide (q.2 < q.1)) =
      strictly_better_somewhere o2 o1 := rfl

/-- Model of `RunCoachOptimizer._find_pareto_optimal_routes`.  The source
accumulates `domination_count` over the pairs `i < j`, adding `1` to the
count of `j` when `_check_dominance == 1` and to the count of `i` when it is
`-1`; by the antisymmetry of `_check_dominance` (theorem
`check_dominance_antisymm` below) the resulting count of index `i` is exactly
the number of indices `j ≠ i` whose route dominates route `i`, which is the
form used here.  The front is the set of routes with count zero. -/
def find_pareto_optimal_routes (routes : List Route) : List Route :=
  routes.enum.filterMap fun p =>
    if (routes.enum.countP fun q =>
          decide (q.1 ≠ p.1) && (check_dominance q.2.objectives p.2.objectives == 1)) = 0
    then some p.2
    else none

/-- Dominance in the specification's words (claim C1): `a` dominates `b` iff
`a` is strictly lower in at least one objective and not higher in any
objective. -/
def Dominates (a b : Objectives) : Prop :=
  (∃ q ∈ a.toList.zip b.toList, q.1 < q.2) ∧ ∀ q ∈ a.toList.zip b.toList, q.1 ≤ q.2

instance (a b : Objectives) : Decidable (Dominates a b) := by
  unfold Dominates
  infer_instance

theorem strictly_better_somewhere_eq_true_iff (a b : Objectives) :
    strictly_better_somewhere a b = true ↔
      ∃ q ∈ a.toList.zip b.toList, q.1 < q.2 := by
  simp [strictly_better_somewhere]

theorem strictly_better_somewhere_eq_false_iff (a b : Objectives) :
    strictly_better_somewhere b a = false ↔
      ∀ q ∈ a.toList.zip b.toList, q.1 ≤ q.2 := by
  rw [show strictly_better_somewhere b a =
        ((a.toList.zip b.toList).any fun q => decide (q.2 < q.1)) from rfl]
  simp [not_lt]

theorem check_dominance_eq_one_iff (a b : Objectives) :
    check_dominance a b = 1 ↔ Dominates a b := by
  unfold check_dominance Dominates
  rw [show (∀ q ∈ a.toList.zip b.toList, q.1 ≤ q.2) ↔
        strictly_better_somewhere b a = false from
      (strictly_better_somewhere_eq_false_iff a b).symm,
    show (∃ q ∈ a.toList.zip b.toList, q.1 < q.2) ↔
        strictly_better_somewhere a b = true from
      (strictly_better_somewhere_eq_true_iff a b).symm]
  cases hab : strictly_better_somewhere a b <;>
    cases hba : strictly_better_somewhere b a <;>
      simp

/-- Antisymmetry of `_check_dominance`, underlying the equivalence between the
source's pair-loop count accumulation and the per-index count used in
`find_pareto_optimal_routes`. -/
theorem check_dominance_antisymm (a b : Objectives) :
    check_dominance a b = 1 ↔ check_dominance b a = -1 := by
  unfold check_dominance
  cases hab : strictly_better_somewhere a b <;>
    cases hba : strictly_better_somewhere b a <;> simp

/-- Elements of the zip of a list with itself have equal components. -/
theorem mem_zip_self {l : List ℚ} {q : ℚ × ℚ} (h : q ∈ l.zip l) : q.1 = q.2 := by
  induction l with
  | nil => cases h
  | cons x xs ih =>
    rw [List.zip_cons_cons, List.mem_cons] at h
    rcases h with rfl | h
    · rfl
    · exact ih h

theorem not_dominates_self (a : Objectives) : ¬ Dominates a a := by
  rintro ⟨⟨q, hq, hlt⟩, -⟩
  exact absurd (mem_zip_self hq ▸ hlt) (lt_irrefl _)

/-- Claim C1: every route returned by the Pareto-front computation is
dominated by no route in the full input set — for all `f` in the returned
front and all `g` in the input list, `g` does not dominate `f`, where
domination is strict improvement in at least one objective and no
deterioration in any. -/
theorem pareto_front_not_dominated (routes : List Route) (f g : Route)
    (hf : f ∈ find_pareto_optimal_routes routes) (hg : g ∈ routes) :
    ¬ Dominates g.objectives f.objectives := by
  intro hdom
  unfold find_pareto_optimal_routes at hf
  rw [List.mem_filterMap] at hf
  obtain ⟨p, hp_mem, hp_eq⟩ := hf
  by_cases hc : (routes.enum.countP fun q =>
      decide (q.1 ≠ p.1) && (check_dominance q.2.objectives p.2.objectives == 1)) = 0
  · rw [if_pos hc] at hp_eq
    have hpf : p.2 = f := by simpa using hp_eq
    obtain ⟨j, hj⟩ := List.mem_iff_getElem?.mp hg
    have hjenum : ((j, g) : ℕ × Route) ∈ routes.enum :=
      List.mk_mem_enum_iff_getElem?.mpr hj
    by_cases hji : j = p.1
    · have hpg : routes[p.1]? = some p.2 := List.mk_mem_enum_iff_getElem?.mp (by
        cases p
        exact hp_mem)
      have : g = p.2 := by
        rw [hji] at hj
        exact Option.some.inj (hj ▸ hpg ▸ rfl)
      rw [this, hpf] at hdom
      exact not_dominates_self _ hdom
    · have hnone := (List.countP_eq_zero.mp hc) _ hjenum
      apply hnone
      simp only [Bool.and_eq_true, decide_eq_true_eq, beq_iff_eq]
      exact ⟨hji, (check_dominance_eq_one_iff _ _).mpr (hpf ▸ hdom)⟩
  · rw [if_neg hc] at hp_eq
    cases hp_eq

/-- Concrete route used by the witness of claim C1 (the spec's scenario C
objective vectors scaled by 10 so that all components are integers). -/
def routeA : Route :=
  { route_id := "A"
    objectives :=
      { exposure := 100, distance_error := 0, elevation_penalty := 0,
        green_space := -5, safety := -8 } }

/-- Second concrete route for the witness of claim C1. -/
def routeB : Route :=
  { route_id := "B"
    objectives :=
      { exposure := 500, distance_error := 0, elevation_penalty := 0,
        green_space := -9, safety := -9 } }

theorem pareto_front_not_dominated_witness :
    ¬ Dominates routeB.objectives routeA.objectives :=
  pareto_front_not_dominated [routeA, routeB] routeA routeB
    (by decide) (by decide)

/-! ### Claim C6: ranking the Pareto front (`_rank_by_preferences`) -/

/-- The objective-weight dict built by
`RunCoachOptimizer._get_preference_weights` (all five keys are always
present). -/
structure Weights where
  exposure : ℚ
  distance_error : ℚ
  elevation_penalty : ℚ
  green_space : ℚ
  safety : ℚ

/-- Model of `RunCoachOptimizer._get_preference_weights`. -/
def get_preference_weights (p : UserProfile) (prefs : RunningPreferences) : Weights :=
  let w : Weights :=
    { exposure := 1, distance_error := 0.5, elevation_penalty := 0.3,
      green_space := 0.4, safety := 0.5 }
  let w := if p.has_asthma || p.has_copd then { w with exposure := 2 } else w
  let w := if p.has_allergies then { w with green_space := 0.8 } else w
  let w := if prefs.avoid_traffic then { w with safety := 0.8 } else w
  let w := if prefs.prioritize_parks then { w with green_space := 0.9 } else w
  w

/-- The weighted score `sum(weights.get(name, 1.0) * abs(value))` computed by
`_rank_by_preferences` for one route. -/
def weighted_score (w : Weights) (o : Objectives) : ℚ :=
  w.exposure * |o.exposure| + w.distance_error * |o.distance_error| +
    w.elevation_penalty * |o.elevation_penalty| + w.green_space * |o.green_space| +
    w.safety * |o.safety|

/-- Model of `RunCoachOptimizer._rank_by_preferences`.  The source raises
`ValueError("No Pareto optimal solutions found")` on an empty front (the
specification calls this error `NoCandidatesError`); otherwise it scans the
front with `best_score` initialized to infinity, so the first route always
replaces the initial `None` and the scan is the head-seeded fold written
here. -/
def rank_by_preferences (pareto_front : List Route) (p : UserProfile)
    (prefs : RunningPreferences) : Except String Route :=
  match pareto_front with
  | [] => Except.error "No Pareto optimal solutions found"
  | r :: rs =>
    let w := get_preference_weights p prefs
    Except.ok (rs.foldl
      (fun best r2 =>
        if weighted_score w r2.objectives < weighted_score w best.objectives then r2
        else best)
      r)

/-- Claim C6: ranking raises exactly on an empty Pareto front — it returns the
specific no-candidates error (`ValueError("No Pareto optimal solutions
found")` in the source) if and only if the front is empty, and returns a
route (never raises) on every non-empty front. -/
theorem rank_by_preferences_error_iff_empty (pareto_front : List Route)
    (p : UserProfile) (prefs : RunningPreferences) :
    (rank_by_preferences pareto_front p prefs =
        Except.error "No Pareto optimal solutions found" ↔ pareto_front = []) ∧
    (pareto_front ≠ [] → ∃ r, rank_by_preferences pareto_front p prefs = Except.ok r) := by
  cases pareto_front with
  | nil => simp [rank_by_preferences]
  | cons r rs => simp [rank_by_preferences]

theorem rank_by_preferences_error_iff_empty_witness :
    (rank_by_preferences [routeA]
        { user_id := "w6", health_conditions := [], age_group := "25-34",
          fitness_level := "intermediate", resting_hr := none, avg_hrv := none,
          vo2_max_estimate := none }
        { preferred_distance_m := 5000, max_elevation_gain_m := 100,
          avoid_traffic := true, prioritize_parks := true } =
          Except.error "No Pareto optimal solutions found" ↔
        ([routeA] : List Route) = []) ∧
    (([routeA] : List Route) ≠ [] →
      ∃ r, rank_by_preferences [routeA]
        { user_id := "w6", health_conditions := [], age_group := "25-34",
          fitness_level := "intermediate", resting_hr := none, avg_hrv := none,
          vo2_max_estimate := none }
        { preferred_distance_m := 5000, max_elevation_gain_m := 100,
          avoid_traffic := true, prioritize_parks := true } = Except.ok r) :=
  rank_by_preferences_error_iff_empty [routeA]
    { user_id := "w6", health_conditions := [], age_group := "25-34",
      fitness_level := "intermediate", resting_hr := none, avg_hrv := none,
      vo2_max_estimate := none }
    { preferred_distance_m := 5000, max_elevation_gain_m := 100,
      avoid_traffic := true, prioritize_parks := true }

/-! ## Pollution grid (`run_coach/core/pollution_grid.py`) -/

/-- Model of the `PollutantData` dataclass fields read by the grid code
(`timestamp`, `co`, `so2` and `source` are never read by the modelled
operations and are omitted). -/
structure PollutantData where
  location : ℚ × ℚ
  aqi : ℚ
  pm25 : ℚ
  pm10 : ℚ
  o3 : ℚ
  no2 : ℚ
  confidence : ℚ
deriving DecidableEq

/-- Geographic bounds dict of `PollutionGrid`. -/
structure Bounds where
  min_lat : ℚ
  max_lat : ℚ
  min_lon : ℚ
  max_lon : ℚ
deriving DecidableEq

/-- Python's `max` over a list, seeded with the head (`max` of an empty list
raises in Python; the `0` default is unreachable in the modelled call sites,
which all guard against empty input). -/
def pyMax : List ℚ → ℚ
  | [] => 0
  | x :: xs => xs.foldl max x

/-- Python's `min` over a list, seeded with the head (same remark as
`pyMax`). -/
def pyMin : List ℚ → ℚ
  | [] => 0
  | x :: xs => xs.foldl min x

/-- Model of `PollutionGrid._calculate_bounds`: bounding box of the reading
locations with 10% of the coordinate range added on each side. -/
def calculate_bounds (sensor_data : List PollutantData) : Bounds :=
  let lats := sensor_data.map fun d => d.location.1
  let lons := sensor_data.map fun d => d.location.2
  let lat_range := pyMax lats - pyMin lats
  let lon_range := pyMax lons - pyMin lons
  { min_lat := pyMin lats - 0.1 * lat_range
    max_lat := pyMax lats + 0.1 * lat_range
    min_lon := pyMin lons - 0.1 * lon_range
    max_lon := pyMax lons + 0.1 * lon_range }

/-- Python's `int()` truncation toward zero on a float, as applied to the grid
step counts in `_create_grid_points`. -/
def pyInt (q : ℚ) : ℤ :=
  if 0 ≤ q then ⌊q⌋ else ⌈q⌉

/-- The `n_lat` step count of `PollutionGrid._create_grid_points`:
`int((max_lat - min_lat) * 111320 / resolution)` — no lower clamp. -/
def n_lat_steps (b : Bounds) (resolution : ℚ) : ℤ :=
  pyInt ((b.max_lat - b.min_lat) * 111320 / resolution)

/-- The `n_lon` step count of `PollutionGrid._create_grid_points`:
`int((max_lon - min_lon) * lon_meters_per_degree / resolution)`.  The factor
`lon_meters_per_degree = 111320 * cos(radians(mean latitude))` involves a
transcendental function, so it is passed in as the parameter `lonScale`; the
theorems below hold for every value of it. -/
def n_lon_steps (b : Bounds) (lonScale resolution : ℚ) : ℤ :=
  pyInt ((b.max_lon - b.min_lon) * lonScale / resolution)

/-- Model of `np.linspace(a, b, n)`: `n` evenly spaced samples from `a` to `b`
inclusive (empty for `n = 0`, `[a]` for `n = 1`). -/
def linspace (a b : ℚ) : ℕ → List ℚ
  | 0 => []
  | 1 => [a]
  | n => (List.range n).map fun i => a + (b - a) * i / (n - 1)

/-- Model of `PollutionGrid._create_grid_points`: the row-major meshgrid of
the `n_lat` latitude samples with the `n_lon` longitude samples. -/
def create_grid_points (b : Bounds) (lonScale resolution : ℚ) : List (ℚ × ℚ) :=
  let lat_points := linspace b.min_lat b.max_lat (n_lat_steps b resolution).toNat
  let lon_points := linspace b.min_lon b.max_lon (n_lon_steps b lonScale resolution).toNat
  lat_points.flatMap fun la => lon_points.map fun lo => (la, lo)

/-- Mutable state of a `PollutionGrid` instance.  Pollutant/uncertainty maps
are association lists keyed by the channel name. -/
structure PollutionGridState where
  resolution : ℚ
  grid_bounds : Option Bounds
  grid_points : List (ℚ × ℚ)
  pollution_values : List (String × List ℚ)
  uncertainty_values : List (String × List ℚ)
  last_update : Option ℚ
deriving DecidableEq

/-- Model of `PollutionGrid.update_grid` as a state transformer.  The
per-channel fit of `_interpolate_pollutants` calls into scipy/numpy
(`griddata`, `np.std`), an external library; it is therefore passed in as the
`interpolate` parameter, which receives the readings, the freshly built grid
points and the previous channel maps (the source updates the dicts in place,
keeping channels it skips) and returns the new value/uncertainty maps.  The
empty-readings guard at the top returns without touching any state, exactly as
the source's early `return`. -/
def update_grid
    (interpolate : List PollutantData → List (ℚ × ℚ) →
      List (String × List ℚ) → List (String × List ℚ) →
      List (String × List ℚ) × List (String × List ℚ))
    (now lonScale : ℚ) (s : PollutionGridState)
    (sensor_data : List PollutantData) (boundsArg : Option Bounds) :
    PollutionGridState :=
  if sensor_data.isEmpty then s
  else
    let bounds := boundsArg.getD (calculate_bounds sensor_data)
    let pts := create_grid_points bounds lonScale s.resolution
    let fit := interpolate sensor_data pts s.pollution_values s.uncertainty_values
    { s with
      grid_bounds := some bounds
      grid_points := pts
      pollution_values := fit.1
      uncertainty_values := fit.2
      last_update := some now }

/-- Claim C7: calling `update_grid` with an empty readings list is a no-op —
the entire state (bounds, grid points, per-pollutant value and uncertainty
maps, last-update timestamp) is returned unchanged, for every interpolation
routine, clock value, longitude scale, prior state and optional bounds
argument; hence any query evaluated afterwards sees exactly the state it saw
before the call. -/
theorem update_grid_empty_readings_noop
    (interpolate : List PollutantData → List (ℚ × ℚ) →
      List (String × List ℚ) → List (String × List ℚ) →
      List (String × List ℚ) × List (String × List ℚ))
    (now lonScale : ℚ) (s : PollutionGridState) (boundsArg : Option Bounds) :
    update_grid interpolate now lonScale s [] boundsArg = s := by
  simp [update_grid]

/-- Two identical readings at the same location: the degenerate input for
claim C5 (zero latitude/longitude extent). -/
def degenerateReadings : List PollutantData :=
  [{ location := (30, -97), aqi := 50, pm25 := 10, pm10 := 10, o3 := 10,
     no2 := 10, confidence := 1 },
   { location := (30, -97), aqi := 50, pm25 := 10, pm10 := 10, o3 := 10,
     no2 := 10, confidence := 1 }]

/-- Claim C5 is violated by the code: for readings that all share one
location, the computed bounds have zero extent, both step counts evaluate to
`int(0) = 0` (there is no clamp to 2 in `_create_grid_points`), and the grid
is empty — for every resolution and every longitude scale.  The claim (and
§4.1 of the specification) requires at least a 2×2 grid. -/
theorem create_grid_points_empty_on_degenerate_bounds (lonScale resolution : ℚ) :
    n_lat_steps (calculate_bounds degenerateReadings) resolution = 0 ∧
    n_lon_steps (calculate_bounds degenerateReadings) lonScale resolution = 0 ∧
    create_grid_points (calculate_bounds degenerateReadings) lonScale resolution = [] := by
  have hb : calculate_bounds degenerateReadings =
      { min_lat := 30, max_lat := 30, min_lon := -97, max_lon := -97 } := by
    norm_num [calculate_bounds, degenerateReadings, pyMax, pyMin]
  have hlat : n_lat_steps (calculate_bounds degenerateReadings) resolution = 0 := by
    rw [hb]
    norm_num [n_lat_steps, pyInt]
  have hlon : n_lon_steps (calculate_bounds degenerateReadings) lonScale resolution = 0 := by
    rw [hb]
    norm_num [n_lon_steps, pyInt]
  refine ⟨hlat, hlon, ?_⟩
  unfold create_grid_points
  rw [hlat, hlon]
  simp [linspace]

/-! ## Exposure history and budget (`health_risk.py`, claim C4) -/

/-- A key appearing in a Python date/datetime comparison: entries of the
exposure history are `datetime.date` objects (calendar dates, modelled as day
numbers), while the cutoff in `_calculate_recent_exposure` is a
`datetime.datetime` (modelled as a rational timestamp in days). -/
inductive PyTimeKey where
  | date : ℤ → PyTimeKey
  | datetime : ℚ → PyTimeKey
deriving DecidableEq

/-- Python's `>=` on date/datetime values: comparing a `datetime.date` with a
`datetime.datetime` (in either order) raises `TypeError`; only same-kind
comparisons succeed. -/
def pyTimeGe : PyTimeKey → PyTimeKey → Except String Bool
  | PyTimeKey.date a, PyTimeKey.date b => Except.ok (decide (b ≤ a))
  | PyTimeKey.datetime a, PyTimeKey.datetime b => Except.ok (decide (b ≤ a))
  | _, _ => Except.error "TypeError: cannot compare datetime.date to datetime.datetime"

/-- The `self.exposure_history` map: user id → (date key → accumulated
exposure score), as association lists. -/
def ExposureHistory : Type :=
  List (String × List (PyTimeKey × ℚ))

/-- Additive update of one user's per-date map, as in
`update_exposure_history`: add to an existing date entry or append a new
one. -/
def updateDateEntry : List (PyTimeKey × ℚ) → PyTimeKey → ℚ → List (PyTimeKey × ℚ)
  | [], k, v => [(k, v)]
  | (k2, v2) :: rest, k, v =>
    if k2 = k then (k2, v2 + v) :: rest
    else (k2, v2) :: updateDateEntry rest k v

/-- Model of `HealthRiskCalculator.update_exposure_history`: `date` is the
supplied datetime (defaulting to `now` in the source); the stored key is
`date.date()`, modelled as the floor day number — a `PyTimeKey.date`. -/
def update_exposure_history (hist : ExposureHistory) (user_id : String)
    (exposure_score : ℚ) (date : ℚ) : ExposureHistory :=
  match hist with
  | [] => [(user_id, [(PyTimeKey.date ⌊date⌋, exposure_score)])]
  | (u, entries) :: rest =>
    if u = user_id then
      (u, updateDateEntry entries (PyTimeKey.date ⌊date⌋) exposure_score) :: rest
    else
      (u, entries) :: update_exposure_history rest user_id exposure_score date

/-- Model of `HealthRiskCalculator._calculate_recent_exposure`: returns `0`
for an unknown user; otherwise sums the entries whose key compares `>=` to
the cutoff `datetime.now() - timedelta(days=days)` — a comparison of a stored
`date` key against a `datetime` cutoff, which raises. -/
def calculate_recent_exposure (hist : ExposureHistory) (user_id : String)
    (days : ℚ) (now : ℚ) : Except String ℚ :=
  match List.lookup user_id (hist : List (String × List (PyTimeKey × ℚ))) with
  | none => Except.ok 0
  | some entries =>
    entries.foldl
      (fun acc e => do
        let s ← acc
        let b ← pyTimeGe e.1 (PyTimeKey.datetime (now - days))
        pure (if b then s + e.2 else s))
      (Except.ok 0)

/-- The dict returned by `calculate_exposure_budget`. -/
structure ExposureBudget where
  daily_limit : ℚ
  weekly_limit : ℚ
  current_usage : ℚ
  remaining_budget : ℚ
  usage_percentage : ℚ
deriving DecidableEq

/-- Model of `HealthRiskCalculator.calculate_exposure_budget`. -/
def calculate_exposure_budget (hist : ExposureHistory) (p : UserProfile)
    (time_window_days : ℚ) (now : ℚ) : Except String ExposureBudget :=
  let risk_factor := calculate_personal_threshold p "moderate" / 75
  let daily_limit := 1000 * risk_factor
  let weekly_limit := 5000 * risk_factor
  (calculate_recent_exposure hist p.user_id time_window_days now).map
    fun current_usage =>
      { daily_limit := daily_limit
        weekly_limit := weekly_limit
        current_usage := current_usage
        remaining_budget := max 0 (weekly_limit - current_usage)
        usage_percentage := current_usage / weekly_limit * 100 }

/-- Healthy default profile used as a concrete input by several theorems. -/
def profileHealthy : UserProfile :=
  { user_id := "u0", health_conditions := [], age_group := "25-34",
    fitness_level := "intermediate", resting_hr := none, avg_hrv := none,
    vo2_max_estimate := none }

/-- Claim C4 is violated by the code: as soon as a user has any exposure
history, `calculate_exposure_budget` raises a `TypeError` instead of summing
the trailing-window entries, because `_calculate_recent_exposure` compares
the stored `datetime.date` keys against a `datetime.datetime` cutoff.  Here
the failing input is one recorded exposure (score 100 on day 20000) for user
`"u0"`, queried with the default 7-day window. -/
theorem exposure_budget_raises_on_nonempty_history :
    calculate_exposure_budget (update_exposure_history [] "u0" 100 20000)
        profileHealthy 7 20000 =
      Except.error "TypeError: cannot compare datetime.date to datetime.datetime" := by
  rfl

/-- Complement to the C4 analysis: for a user with no recorded history the
computation does succeed, with `current_usage = 0` (the source returns `0.0`
before any date comparison happens). -/
theorem exposure_budget_ok_on_empty_history :
    (calculate_exposure_budget [] profileHealthy 7 20000).map
        ExposureBudget.current_usage = Except.ok 0 := by
  rfl

/-! ## Time window optimizer (`run_coach/services/time_optimizer.py`) -/

/-- Model of the `WeatherConditions` dataclass. -/
structure WeatherConditions where
  temperature : ℚ
  humidity : ℚ
  wind_speed : ℚ
  uv_index : ℚ
  precipitation_probability : ℚ
  visibility : ℚ
deriving DecidableEq

/-- Score of a single hour's weather inside
`TimeWindowOptimizer._calculate_weather_score`, using the
`ideal_conditions` constants of the source: temperature band `[10, 20]`,
humidity band `[40, 60]`, wind limit `15`, UV limit `5`, precipitation
limit `0.2`. -/
def weather_condition_score (c : WeatherConditions) : ℚ :=
  let score : ℚ := 1
  let temp_score : ℚ :=
    if 10 ≤ c.temperature ∧ c.temperature ≤ 20 then 1
    else if c.temperature < 10 then max 0 (1 - (10 - c.temperature) / 10)
    else max 0 (1 - (c.temperature - 20) / 10)
  let score := score * temp_score
  let humidity_score : ℚ :=
    if 40 ≤ c.humidity ∧ c.humidity ≤ 60 then 1
    else max 0 (1 - |c.humidity - 50| / 50)
  let score := score * humidity_score
  let wind_score : ℚ :=
    if c.wind_speed ≤ 15 then 1 - c.wind_speed / 30 else 0.3
  let score := score * wind_score
  let score :=
    if c.precipitation_probability > 0.2 then
      score * (1 - c.precipitation_probability)
    else score
  let score := if c.uv_index > 5 then score * 0.7 else score
  score

/-- Model of `TimeWindowOptimizer._calculate_weather_score`: neutral `0.5` on
an empty slice, otherwise the mean of the per-hour scores. -/
def calculate_weather_score (ws : List WeatherConditions) : ℚ :=
  if ws.isEmpty then 0.5
  else pyMean (ws.map weather_condition_score)

/-- The window dict built by `_identify_candidate_windows`. -/
structure CandWindow where
  start_idx : ℕ
  end_idx : ℕ
  avg_aqi : ℚ
  max_aqi : ℚ
  weather_score : ℚ
deriving DecidableEq

/-- The `while i < len(aqi_forecast) - duration_hours + 1` loop of
`_identify_candidate_windows`: a qualifying window (all of its hours strictly
below the threshold) is recorded and the scan jumps past it
(`i += duration_hours`); otherwise the scan advances one hour.  The loop is
written with explicit fuel; `aqi.length + 1` fuel suffices for any
`dur ≥ 1` since `i` strictly increases (for `dur = 0` the source loops
forever re-appending an empty window at the same index, which the fuel
truncates — the claims' theorems assume a positive duration or are closed
instances with a positive duration). -/
def identify_windows_loop (aqi : List ℚ) (weather : List WeatherConditions)
    (threshold : ℚ) (dur : ℕ) : ℕ → ℕ → List CandWindow
  | 0, _ => []
  | fuel + 1, i =>
    if (i : ℤ) < (aqi.length : ℤ) - (dur : ℤ) + 1 then
      let window_aqi := (aqi.drop i).take dur
      if window_aqi.all fun a => decide (a < threshold) then
        { start_idx := i
          end_idx := i + dur
          avg_aqi := pyMean window_aqi
          max_aqi := pyMax window_aqi
          weather_score := calculate_weather_score ((weather.drop i).take dur) } ::
          identify_windows_loop aqi weather threshold dur fuel (i + dur)
      else
        identify_windows_loop aqi weather threshold dur fuel (i + 1)
    else []

/-- The `duration_hours = np.ceil(duration_minutes / 60)` conversion. -/
def duration_hours_of (duration_minutes : ℕ) : ℕ :=
  (duration_minutes + 59) / 60

/-- Model of `TimeWindowOptimizer._identify_candidate_windows`. -/
def identify_candidate_windows (aqi : List ℚ) (weather : List WeatherConditions)
    (aqi_threshold : ℚ) (duration_minutes : ℕ) : List CandWindow :=
  identify_windows_loop aqi weather aqi_threshold (duration_hours_of duration_minutes)
    (aqi.length + 1) 0

/-- Model of `TimeWindowOptimizer._calculate_time_preference_score` (`hour` is
the hour-of-day of the window start). -/
def calculate_time_preference_score (hour : ℕ) (preferred_time : String) : ℚ :=
  if preferred_time = "morning" then
    if 5 ≤ hour ∧ hour ≤ 9 then 1
    else if 9 < hour ∧ hour ≤ 11 then 0.7
    else 0.3
  else if preferred_time = "evening" then
    if 17 ≤ hour ∧ hour ≤ 20 then 1
    else if 15 ≤ hour ∧ hour < 17 then 0.7
    else 0.3
  else if preferred_time = "afternoon" then
    if 12 ≤ hour ∧ hour ≤ 16 then 1
    else if (10 ≤ hour ∧ hour < 12) ∨ (16 < hour ∧ hour ≤ 18) then 0.7
    else 0.3
  else 0.8

/-- Model of `TimeWindowOptimizer._calculate_circadian_score`. -/
def calculate_circadian_score (hour : ℕ) : ℚ :=
  if 6 ≤ hour ∧ hour ≤ 8 then 0.9
  else if 16 ≤ hour ∧ hour ≤ 19 then 1
  else if 9 ≤ hour ∧ hour ≤ 11 then 0.8
  else if 14 ≤ hour ∧ hour ≤ 16 then 0.7
  else if (5 ≤ hour ∧ hour < 6) ∨ (19 < hour ∧ hour ≤ 20) then 0.5
  else 0.2

/-- Model of the `TimeWindow` dataclass as produced by the optimizer.
`startHour`/`endHour` are the hour offsets of `start`/`end` from
`current_time` (the source stores `current_time + timedelta(hours=idx)`;
offsets order and overlap exactly as the datetimes do).  `overall_score` is
`factors['overall_score']`, the only factor the pipeline reads back. -/
structure TimeWindowM where
  startHour : ℕ
  endHour : ℕ
  avg_aqi : ℚ
  weather_score : ℚ
  confidence : ℚ
  overall_score : ℚ
deriving DecidableEq

/-- Scoring of one candidate window in `_score_windows` (40% AQI score
normalized to a 200 ceiling, 30% weather, 20% time-of-day preference, 10%
circadian).  `currentHour` is `datetime.now().hour`, so the hour-of-day of
the window start is `(currentHour + start_idx) % 24`. -/
def score_window (currentHour : ℕ) (preferred_time : String) (w : CandWindow) :
    TimeWindowM :=
  let aqi_score := 1 - w.avg_aqi / 200
  let time_score :=
    calculate_time_preference_score ((currentHour + w.start_idx) % 24) preferred_time
  let circadian_score := calculate_circadian_score ((currentHour + w.start_idx) % 24)
  let score := aqi_score * 0.4 + w.weather_score * 0.3 + time_score * 0.2 +
    circadian_score * 0.1
  { startHour := w.start_idx
    endHour := w.end_idx
    avg_aqi := w.avg_aqi
    weather_score := w.weather_score
    confidence := 0.8
    overall_score := score }

/-- Stable insertion into a descending-sorted list: the new element goes
after every element whose key is at least its own, which is exactly where
Python's stable `list.sort(key=..., reverse=True)` keeps it. -/
def insertDescBy {α : Type} (key : α → ℚ) (x : α) : List α → List α
  | [] => [x]
  | y :: ys => if key x ≤ key y then y :: insertDescBy key x ys else x :: y :: ys

/-- Stable descending sort by a rational key, modelling Python's
`list.sort(key=..., reverse=True)`. -/
def sortDescBy {α : Type} (key : α → ℚ) (l : List α) : List α :=
  l.foldl (fun acc x => insertDescBy key x acc) []

/-- Model of `TimeWindowOptimizer._score_windows`: score every candidate, then
sort by `factors['overall_score']` descending. -/
def score_windows (windows : List CandWindow) (currentHour : ℕ)
    (preferred_time : String) : List TimeWindowM :=
  sortDescBy (fun w => w.overall_score)
    (windows.map (score_window currentHour preferred_time))

/-- Model of `TimeWindowOptimizer._find_fallback_windows`: one-hour slots
`[i, i+1)` for `i < len(aqi_forecast) - 1`, scored by AQI alone
(`(200 - aqi) / 200`), neutral weather `0.5`, lower confidence `0.6`, sorted
by score descending and truncated to the requested count. -/
def find_fallback_windows (aqi : List ℚ) (num_windows : ℕ) : List TimeWindowM :=
  let all_windows := (List.range (aqi.length - 1)).map fun i =>
    { startHour := i
      endHour := i + 1
      avg_aqi := aqi.getD i 0
      weather_score := 0.5
      confidence := 0.6
      overall_score := (200 - aqi.getD i 0) / 200 : TimeWindowM }
  (sortDescBy (fun w => w.overall_score) all_windows).take num_windows

/-- Model of `TimeWindowOptimizer.find_optimal_windows`.  The AQI and weather
forecasts are external collaborators and are passed in as lists (parallel,
hour-indexed from "now").  The time-preference lookup in the source is
`getattr(user_profile, 'preferred_time_of_day', 'morning')`, and the
`UserProfile` dataclass has no `preferred_time_of_day` attribute, so the
default `"morning"` is always used, as here.  If fewer than `min_windows`
scored windows exist, the list is extended with fallback slots; the source
then returns `scored_windows[:min_windows]`. -/
def find_optimal_windows (aqi : List ℚ) (weather : List WeatherConditions)
    (p : UserProfile) (duration_minutes min_windows currentHour : ℕ) :
    List TimeWindowM :=
  let aqi_threshold := calculate_personal_threshold p "moderate"
  let candidate_windows :=
    identify_candidate_windows aqi weather aqi_threshold duration_minutes
  let scored_windows := score_windows candidate_windows currentHour "morning"
  let final :=
    if scored_windows.length < min_windows then
      scored_windows ++ find_fallback_windows aqi (min_windows - scored_windows.length)
    else scored_windows
  final.take min_windows

/-- Two returned windows overlap when their `[start, end)` hour ranges
intersect. -/
def windows_overlap (w1 w2 : TimeWindowM) : Prop :=
  w1.startHour < w2.endHour ∧ w2.startHour < w1.endHour

instance (w1 w2 : TimeWindowM) : Decidable (windows_overlap w1 w2) := by
  unfold windows_overlap
  infer_instance

/-! ### Weekly schedule (`suggest_weekly_schedule`, claim C8) -/

/-- The day-selection loop of `suggest_weekly_schedule`: walk the days in
descending order of their best window score, stop at `runs_per_week`
selections, and select a day only when its distance to every already selected
day exceeds 1.  (The source's `if not selected_days or all(...)` guard is the
plain `all(...)`, which is vacuously true on an empty selection.) -/
def select_days_loop (runs_per_week : ℕ) : List (ℕ × ℚ) → List ℕ → List ℕ
  | [], selected => selected
  | (day, _) :: rest, selected =>
    if runs_per_week ≤ selected.length then selected
    else if selected.all fun d => decide (1 < |(day : ℤ) - (d : ℤ)|) then
      select_days_loop runs_per_week rest (selected ++ [day])
    else
      select_days_loop runs_per_week rest selected

/-- The day-selection part of `TimeWindowOptimizer.suggest_weekly_schedule`:
pair each day with its best window's `overall_score`
(`max(w.factors['overall_score'] for w in windows)` — it raises on a day with
no windows, which `pyMax`'s default replaces by `0`; the theorems below
restrict to days with at least one window), sort days by score descending
(stable), then greedily select with recovery spacing.  Returns the selected
day indices; unselected days become rest days. -/
def suggest_weekly_schedule_days (windows_per_day : List (List TimeWindowM))
    (runs_per_week : ℕ) : List ℕ :=
  let day_scores := windows_per_day.enum.map fun q =>
    (q.1, pyMax (q.2.map fun w => w.overall_score))
  select_days_loop runs_per_week (sortDescBy (fun q => q.2) day_scores) []

/-! ### Sorting lemmas -/

theorem insertDescBy_perm {α : Type} (key : α → ℚ) (x : α) (l : List α) :
    List.Perm (insertDescBy key x l) (x :: l) := by
  induction l with
  | nil => exact List.Perm.refl _
  | cons y ys ih =>
    unfold insertDescBy
    by_cases h : key x ≤ key y
    · rw [if_pos h]
      exact (ih.cons y).trans (List.Perm.swap x y ys)
    · rw [if_neg h]

theorem sortDescBy_fold_perm {α : Type} (key : α → ℚ) (l acc : List α) :
    List.Perm (l.foldl (fun acc x => insertDescBy key x acc) acc) (l ++ acc) := by
  induction l generalizing acc with
  | nil => exact List.Perm.refl _
  | cons x xs ih =>
    simp only [List.foldl_cons, List.cons_append]
    exact (ih (insertDescBy key x acc)).trans
      (((insertDescBy_perm key x acc).append_left xs).trans List.perm_middle)

theorem sortDescBy_perm {α : Type} (key : α → ℚ) (l : List α) :
    List.Perm (sortDescBy key l) l := by
  have h := sortDescBy_fold_perm key l []
  rwa [List.append_nil] at h

/-! ### Claim C3: window non-overlap -/

/-- Invariant of the candidate-window scan: every produced window starts at or
after the scan position, spans exactly `dur` hours, and the produced list is
ordered with each window ending before the next begins. -/
theorem identify_windows_loop_invariant (aqi : List ℚ)
    (weather : List WeatherConditions) (threshold : ℚ) (dur : ℕ) :
    ∀ (fuel i : ℕ),
      (∀ w ∈ identify_windows_loop aqi weather threshold dur fuel i,
        i ≤ w.start_idx ∧ w.end_idx = w.start_idx + dur) ∧
      (identify_windows_loop aqi weather threshold dur fuel i).Pairwise
        (fun a b => a.end_idx ≤ b.start_idx) := by
  intro fuel
  induction fuel with
  | zero =>
    intro i
    refine ⟨?_, ?_⟩
    · intro w hw
      cases hw
    · exact List.Pairwise.nil
  | succ fuel ih =>
    intro i
    by_cases hcond : (i : ℤ) < (aqi.length : ℤ) - (dur : ℤ) + 1
    · by_cases hall : ((aqi.drop i).take dur).all (fun a => decide (a < threshold)) = true
      · have hstep : identify_windows_loop aqi weather threshold dur (fuel + 1) i =
            { start_idx := i
              end_idx := i + dur
              avg_aqi := pyMean ((aqi.drop i).take dur)
              max_aqi := pyMax ((aqi.drop i).take dur)
              weather_score := calculate_weather_score ((weather.drop i).take dur) } ::
              identify_windows_loop aqi weather threshold dur fuel (i + dur) := by
          simp only [identify_windows_loop]
          rw [if_pos hcond, if_pos hall]
        rw [hstep]
        obtain ⟨ihmem, ihpw⟩ := ih (i + dur)
        refine ⟨?_, ?_⟩
        · intro w hw
          rcases List.mem_cons.mp hw with rfl | hw
          · exact ⟨le_rfl, rfl⟩
          · exact ⟨le_trans (Nat.le_add_right i dur) (ihmem w hw).1, (ihmem w hw).2⟩
        · exact List.pairwise_cons.mpr ⟨fun b hb => (ihmem b hb).1, ihpw⟩
      · have hstep : identify_windows_loop aqi weather threshold dur (fuel + 1) i =
            identify_windows_loop aqi weather threshold dur fuel (i + 1) := by
          simp only [identify_windows_loop]
          rw [if_pos hcond, if_neg hall]
        rw [hstep]
        obtain ⟨ihmem, ihpw⟩ := ih (i + 1)
        refine ⟨?_, ihpw⟩
        intro w hw
        exact ⟨le_trans (Nat.le_succ i) (ihmem w hw).1, (ihmem w hw).2⟩
    · have hstep : identify_windows_loop aqi weather threshold dur (fuel + 1) i = [] := by
        unfold identify_windows_loop
        rw [if_neg hcond]
      rw [hstep]
      refine ⟨?_, List.Pairwise.nil⟩
      intro w hw
      cases hw

theorem windows_overlap_symm {w1 w2 : TimeWindowM} (h : windows_overlap w1 w2) :
    windows_overlap w2 w1 :=
  ⟨h.2, h.1⟩

/-- Claim C3, amended: as long as the threshold-qualifying scan alone supplies
at least `min_windows` windows (so no fallback backfill happens), the list
returned by `find_optimal_windows` never contains two windows whose
`[start, end)` ranges overlap.  (The unamended claim fails when backfill
happens; see the counterexample below.) -/
theorem find_optimal_windows_no_overlap_without_backfill (aqi : List ℚ)
    (weather : List WeatherConditions) (p : UserProfile)
    (duration_minutes min_windows currentHour : ℕ)
    (h : min_windows ≤ (identify_candidate_windows aqi weather
        (calculate_personal_threshold p "moderate") duration_minutes).length) :
    (find_optimal_windows aqi weather p duration_minutes min_windows
        currentHour).Pairwise
      fun w1 w2 => ¬ windows_overlap w1 w2 := by
  simp only [find_optimal_windows]
  have hlen : (score_windows (identify_candidate_windows aqi weather
      (calculate_personal_threshold p "moderate") duration_minutes) currentHour
      "morning").length =
      (identify_candidate_windows aqi weather
        (calculate_personal_threshold p "moderate") duration_minutes).length := by
    unfold score_windows
    rw [(sortDescBy_perm _ _).length_eq, List.length_map]
  rw [if_neg (by rw [hlen]; exact not_lt.mpr h)]
  apply List.Pairwise.sublist (List.take_sublist _ _)
  unfold score_windows
  have hcand := (identify_windows_loop_invariant aqi weather
    (calculate_personal_threshold p "moderate")
    (duration_hours_of duration_minutes) (aqi.length + 1) 0).2
  have hmap : ((identify_candidate_windows aqi weather
      (calculate_personal_threshold p "moderate") duration_minutes).map
        (score_window currentHour "morning")).Pairwise
      fun w1 w2 => ¬ windows_overlap w1 w2 := by
    rw [List.pairwise_map]
    refine hcand.imp ?_
    intro a b hab hov
    exact absurd hov.2 (not_lt.mpr hab)
  exact ((sortDescBy_perm (fun w => w.overall_score) _).pairwise_iff
    fun hab hov => hab (windows_overlap_symm hov)).mpr hmap

/-- Evaluation of the personal threshold of the healthy default profile. -/
theorem threshold_profileHealthy :
    calculate_personal_threshold profileHealthy "moderate" = 75 := by
  have hb : base_threshold "moderate" = 75 := by decide
  have hc : condition_multiplier profileHealthy.health_conditions = 1 := rfl
  have ha : age_multiplier profileHealthy = 1 := by decide
  have hf : calculate_fitness_multiplier profileHealthy = 1 := by
    norm_num [calculate_fitness_multiplier, profileHealthy]
  have hh : calculate_hrv_multiplier profileHealthy = 1 := rfl
  unfold calculate_personal_threshold
  rw [hb, hc, ha, hf, hh]
  norm_num

theorem find_optimal_windows_no_overlap_without_backfill_witness :
    (find_optimal_windows [30, 30] [] profileHealthy 60 2 0).Pairwise
      fun w1 w2 => ¬ windows_overlap w1 w2 :=
  find_optimal_windows_no_overlap_without_backfill [30, 30] [] profileHealthy 60 2 0
    (by norm_num [identify_candidate_windows, identify_windows_loop,
      duration_hours_of, threshold_profileHealthy])

/-- Claim C3 as stated is violated by the code: with forecast
`[30, 120, 120, 120]`, a 60-minute duration and `min_windows = 3` (healthy
default profile, threshold 75), only one qualifying window `[0,1)` exists, so
the result is backfilled with the two best fallback hourly slots — and the
best fallback slot is the same hour `[0,1)`, so the returned list contains
two overlapping (identical-range) windows. -/
theorem find_optimal_windows_overlap_counterexample :
    ¬ (find_optimal_windows [30, 120, 120, 120] [] profileHealthy 60 3 0).Pairwise
      fun w1 w2 => ¬ windows_overlap w1 w2 := by
  have heval : find_optimal_windows [30, 120, 120, 120] [] profileHealthy 60 3 0 =
      [{ startHour := 0, endHour := 1, avg_aqi := 30, weather_score := 0.5,
         confidence := 0.8, overall_score := 0.57 },
       { startHour := 0, endHour := 1, avg_aqi := 30, weather_score := 0.5,
         confidence := 0.6, overall_score := 0.85 },
       { startHour := 1, endHour := 2, avg_aqi := 120, weather_score := 0.5,
         confidence := 0.6, overall_score := 0.4 }] := by
    norm_num [find_optimal_windows, identify_candidate_windows,
      identify_windows_loop, duration_hours_of, threshold_profileHealthy,
      score_windows, score_window, sortDescBy, insertDescBy,
      find_fallback_windows, calculate_weather_score, pyMean, pyMax,
      calculate_time_preference_score, calculate_circadian_score,
      List.range_succ]
  rw [heval]
  intro hp
  obtain ⟨h1, -⟩ := List.pairwise_cons.mp hp
  exact h1 _ (List.mem_cons_self _ _) ⟨by norm_num, by norm_num⟩

/-! ### Claim C8: weekly schedule spacing -/

theorem select_days_loop_append (runs : ℕ) (l : List (ℕ × ℚ)) (sel : List ℕ) :
    ∃ t, select_days_loop runs l sel = sel ++ t := by
  induction l generalizing sel with
  | nil => exact ⟨[], by simp [select_days_loop]⟩
  | cons p rest ih =>
    obtain ⟨day, sc⟩ := p
    by_cases h1 : runs ≤ sel.length
    · refine ⟨[], ?_⟩
      simp only [select_days_loop]
      rw [if_pos h1, List.append_nil]
    · by_cases h2 : sel.all fun d => decide (1 < |(day : ℤ) - (d : ℤ)|)
      · obtain ⟨t, ht⟩ := ih (sel ++ [day])
        refine ⟨day :: t, ?_⟩
        simp only [select_days_loop]
        rw [if_neg h1, if_pos h2, ht, List.append_assoc]
        rfl
      · obtain ⟨t, ht⟩ := ih sel
        refine ⟨t, ?_⟩
        simp only [select_days_loop]
        rw [if_neg h1, if_neg h2]
        exact ht

theorem select_days_loop_length_le (runs : ℕ) (l : List (ℕ × ℚ)) (sel : List ℕ)
    (h : sel.length ≤ runs) : (select_days_loop runs l sel).length ≤ runs := by
  induction l generalizing sel with
  | nil => simpa [select_days_loop] using h
  | cons p rest ih =>
    obtain ⟨day, sc⟩ := p
    by_cases h1 : runs ≤ sel.length
    · simp only [select_days_loop]
      rw [if_pos h1]
      exact h
    · by_cases h2 : sel.all fun d => decide (1 < |(day : ℤ) - (d : ℤ)|)
      · simp only [select_days_loop]
        rw [if_neg h1, if_pos h2]
        apply ih
        rw [List.length_append, List.length_singleton]
        omega
      · simp only [select_days_loop]
        rw [if_neg h1, if_neg h2]
        exact ih sel h

theorem select_days_loop_pairwise (runs : ℕ) (l : List (ℕ × ℚ)) (sel : List ℕ)
    (h : sel.Pairwise fun a b : ℕ => 1 < |(a : ℤ) - (b : ℤ)|) :
    (select_days_loop runs l sel).Pairwise fun a b : ℕ => 1 < |(a : ℤ) - (b : ℤ)| := by
  induction l generalizing sel with
  | nil => simpa [select_days_loop] using h
  | cons p rest ih =>
    obtain ⟨day, sc⟩ := p
    by_cases h1 : runs ≤ sel.length
    · simp only [select_days_loop]
      rw [if_pos h1]
      exact h
    · by_cases h2 : sel.all fun d => decide (1 < |(day : ℤ) - (d : ℤ)|)
      · simp only [select_days_loop]
        rw [if_neg h1, if_pos h2]
        apply ih
        rw [List.pairwise_append]
        refine ⟨h, List.pairwise_singleton _ _, ?_⟩
        intro a ha b hb
        rw [List.mem_singleton] at hb
        subst hb
        have hgap := List.all_eq_true.mp h2 a ha
        rw [decide_eq_true_eq] at hgap
        rwa [abs_sub_comm]
      · simp only [select_days_loop]
        rw [if_neg h1, if_neg h2]
        exact ih sel h

/-- If the greedy selection finishes short of the requested count, every day
offered to it ends up within distance 1 of some selected day (possibly
itself). -/
theorem select_days_loop_blocked (runs : ℕ) (l : List (ℕ × ℚ)) (sel : List ℕ)
    (hlen : (select_days_loop runs l sel).length < runs) :
    ∀ d sc, (d, sc) ∈ l →
      ∃ s ∈ select_days_loop runs l sel, |(d : ℤ) - (s : ℤ)| ≤ 1 := by
  induction l generalizing sel with
  | nil =>
    intro d sc hd
    cases hd
  | cons p rest ih =>
    obtain ⟨day, sc0⟩ := p
    intro d sc hd
    by_cases h1 : runs ≤ sel.length
    · exfalso
      have hres : select_days_loop runs ((day, sc0) :: rest) sel = sel := by
        simp only [select_days_loop]
        rw [if_pos h1]
      rw [hres] at hlen
      omega
    · by_cases h2 : sel.all fun d2 => decide (1 < |(day : ℤ) - (d2 : ℤ)|)
      · have hres : select_days_loop runs ((day, sc0) :: rest) sel =
            select_days_loop runs rest (sel ++ [day]) := by
          simp only [select_days_loop]
          rw [if_neg h1, if_pos h2]
        rw [hres] at hlen ⊢
        rcases List.mem_cons.mp hd with heq | hd2
        · have hd1 : d = day := by
            injection heq with hfst hsnd
          subst hd1
          obtain ⟨t, ht⟩ := select_days_loop_append runs rest (sel ++ [d])
          refine ⟨d, ?_, by norm_num⟩
          rw [ht]
          exact List.mem_append.mpr (Or.inl (List.mem_append.mpr (Or.inr (by simp))))
        · exact ih (sel ++ [day]) hlen d sc hd2
      · have hres : select_days_loop runs ((day, sc0) :: rest) sel =
            select_days_loop runs rest sel := by
          simp only [select_days_loop]
          rw [if_neg h1, if_neg h2]
        rw [hres] at hlen ⊢
        rcases List.mem_cons.mp hd with heq | hd2
        · have hday : d = day := by
            injection heq with hfst hsnd
          subst hday
          rw [List.all_eq_true] at h2
          push_neg at h2
          obtain ⟨s, hs, hns⟩ := h2
          simp only [ne_eq, decide_eq_true_eq, not_lt] at hns
          obtain ⟨t, ht⟩ := select_days_loop_append runs rest sel
          refine ⟨s, ?_, hns⟩
          rw [ht]
          exact List.mem_append.mpr (Or.inl hs)
        · exact ih sel hlen d sc hd2

/-- Coverage counting: two (or fewer) selected days cannot each sit within
distance 1 of all seven days 0..6, since each selected day covers at most
three of them. -/
theorem two_selected_cannot_block_seven (S : List ℕ) (hlen : S.length ≤ 2)
    (hcover : ∀ d : ℕ, d < 7 → ∃ s ∈ S, |(d : ℤ) - (s : ℤ)| ≤ 1) : False := by
  have hsub : Finset.range 7 ⊆ S.toFinset.biUnion fun s => {s - 1, s, s + 1} := by
    intro d hd
    rw [Finset.mem_range] at hd
    obtain ⟨s, hs, hdist⟩ := hcover d hd
    rw [abs_le] at hdist
    rw [Finset.mem_biUnion]
    refine ⟨s, List.mem_toFinset.mpr hs, ?_⟩
    simp only [Finset.mem_insert, Finset.mem_singleton]
    omega
  have h1 : (7 : ℕ) ≤ (S.toFinset.biUnion fun s => ({s - 1, s, s + 1} : Finset ℕ)).card := by
    calc (7 : ℕ) = (Finset.range 7).card := (Finset.card_range 7).symm
    _ ≤ _ := Finset.card_le_card hsub
  have h2 : (S.toFinset.biUnion fun s => ({s - 1, s, s + 1} : Finset ℕ)).card ≤
      S.toFinset.card * 3 := by
    apply le_trans Finset.card_biUnion_le
    have h3 : ∀ s ∈ S.toFinset, ({s - 1, s, s + 1} : Finset ℕ).card ≤ 3 := by
      intro s _
      apply le_trans (Finset.card_insert_le _ _)
      have h4 : ({s, s + 1} : Finset ℕ).card ≤ 2 := by
        apply le_trans (Finset.card_insert_le _ _)
        simp
      omega
    apply le_trans (Finset.sum_le_sum h3)
    rw [Finset.sum_const, smul_eq_mul]
  have h5 : S.toFinset.card ≤ S.length := S.toFinset_card_le
  omega

/-- Claim C8: `suggest_weekly_schedule` with `runs_per_week = 3` over a 7-day
horizon (each day having at least one scored window) always selects exactly 3
days and never two consecutive ones — the greedy spacing never needs to fall
back to an adjacent day, because two selected days can block at most six of
the seven days. -/
theorem suggest_weekly_schedule_spacing (windows_per_day : List (List TimeWindowM))
    (h7 : windows_per_day.length = 7)
    (_hne : ∀ ws ∈ windows_per_day, ws ≠ []) :
    (suggest_weekly_schedule_days windows_per_day 3).length = 3 ∧
    (suggest_weekly_schedule_days windows_per_day 3).Pairwise
      fun a b : ℕ => 1 < |(a : ℤ) - (b : ℤ)| := by
  have hresult : suggest_weekly_schedule_days windows_per_day 3 =
      select_days_loop 3 (sortDescBy (fun q => q.2)
        (windows_per_day.enum.map fun q =>
          (q.1, pyMax (q.2.map fun w => w.overall_score)))) [] := rfl
  rw [hresult]
  set l := sortDescBy (fun q => q.2)
    (windows_per_day.enum.map fun q =>
      (q.1, pyMax (q.2.map fun w => w.overall_score))) with hl
  have key : ∀ d : ℕ, d < 7 → ∃ sc, (d, sc) ∈ l := by
    intro d hd
    have hfst : ((windows_per_day.enum.map fun q =>
        (q.1, pyMax (q.2.map fun w => w.overall_score))).map Prod.fst) =
        List.range windows_per_day.length := by
      rw [List.map_map]
      have hcomp : (Prod.fst ∘ fun q : ℕ × List TimeWindowM =>
          (q.1, pyMax (q.2.map fun w => w.overall_score))) = Prod.fst := rfl
      rw [hcomp, List.enum_map_fst]
    have hperm : List.Perm (l.map Prod.fst)
        ((windows_per_day.enum.map fun q =>
          (q.1, pyMax (q.2.map fun w => w.overall_score))).map Prod.fst) :=
      (sortDescBy_perm _ _).map _
    have hd2 : d ∈ l.map Prod.fst := by
      apply hperm.mem_iff.mpr
      rw [hfst, h7]
      exact List.mem_range.mpr hd
    obtain ⟨q, hq, hq2⟩ := List.mem_map.mp hd2
    refine ⟨q.2, ?_⟩
    rw [← hq2]
    simpa using hq
  have hle : (select_days_loop 3 l []).length ≤ 3 :=
    select_days_loop_length_le 3 l [] (by simp)
  have hlen3 : (select_days_loop 3 l []).length = 3 := by
    by_contra hne2
    have hlt : (select_days_loop 3 l []).length < 3 := lt_of_le_of_ne hle hne2
    apply two_selected_cannot_block_seven (select_days_loop 3 l []) (by omega)
    intro d hd
    obtain ⟨sc, hsc⟩ := key d hd
    exact select_days_loop_blocked 3 l [] hlt d sc hsc
  exact ⟨hlen3, select_days_loop_pairwise 3 l [] List.Pairwise.nil⟩

/-- Seven days of windows with distinct integer scores, the concrete input of
the witness for claim C8. -/
def witnessWeek : List (List TimeWindowM) :=
  [[{ startHour := 0, endHour := 1, avg_aqi := 50, weather_score := 1,
      confidence := 1, overall_score := 5 }],
   [{ startHour := 0, endHour := 1, avg_aqi := 50, weather_score := 1,
      confidence := 1, overall_score := 9 }],
   [{ startHour := 0, endHour := 1, avg_aqi := 50, weather_score := 1,
      confidence := 1, overall_score := 8 }],
   [{ startHour := 0, endHour := 1, avg_aqi := 50, weather_score := 1,
      confidence := 1, overall_score := 7 }],
   [{ startHour := 0, endHour := 1, avg_aqi := 50, weather_score := 1,
      confidence := 1, overall_score := 3 }],
   [{ startHour := 0, endHour := 1, avg_aqi := 50, weather_score := 1,
      confidence := 1, overall_score := 6 }],
   [{ startHour := 0, endHour := 1, avg_aqi := 50, weather_score := 1,
      confidence := 1, overall_score := 2 }]]

theorem suggest_weekly_schedule_spacing_witness :
    (suggest_weekly_schedule_days witnessWeek 3).length = 3 ∧
    (suggest_weekly_schedule_days witnessWeek 3).Pairwise
      fun a b : ℕ => 1 < |(a : ℤ) - (b : ℤ)| :=
  suggest_weekly_schedule_spacing witnessWeek rfl (by decide)

end RunCoach
